import Mathlib

/-!
Verification of the Procedural Timeline & Request Workflow of ProcedeAI.

The embedding follows the source files:
 * `src/pages/2_Smart_Timeline.py` — the submission / timeline workflow
   (`add_submission`, `process_decision`, the pending filter, the role-gated
   action tabs);
 * `src/main.py` — the user store (`create_user`).

Tables (pandas DataFrames backed by spreadsheet worksheets) are embedded as
Lists of records; row order is the store's iteration order.  The current date
(`datetime.now().strftime` in the source) is passed in as an explicit `today`
string.  String comparison in the source is exact string equality, embedded as
`String` equality.
-/

namespace ProcedeAI

/-- A row of the Submissions worksheet, columns as in
`get_submissions` (src/pages/2_Smart_Timeline.py line 24). -/
structure Submission where
  party : String
  doc_type : String
  summary : String
  proposed_date : String
  status : String
  target_event : String
  decision_reason : String
  decision_date : String
  deriving Repr, DecidableEq

/-- A row of the Timeline worksheet, columns as used throughout
src/pages/2_Smart_Timeline.py (`event`, `date`, `owner`, `status`). -/
structure TimelineEvent where
  event : String
  date : String
  owner : String
  status : String
  deriving Repr, DecidableEq

/-- `add_submission` (src/pages/2_Smart_Timeline.py lines 33-49): reads the
Submissions store, appends one new row with `status = "Pending"` and empty
decision fields, and writes the result back.  No validation of
`target_event` is performed by the function. -/
def add_submission (subs : List Submission)
    (party doc_type summary proposed_date target_event : String) :
    List Submission :=
  subs ++ [{ party := party, doc_type := doc_type, summary := summary,
             proposed_date := proposed_date, status := "Pending",
             target_event := target_event, decision_reason := "",
             decision_date := "" }]

/-- The row update performed at lines 56-58 of
src/pages/2_Smart_Timeline.py: set `status`, `decision_reason` and
`decision_date` of one submission row. -/
def recordDecision (s : Submission) (status reason today : String) : Submission :=
  { s with status := status, decision_reason := reason, decision_date := today }

/-- Apply `recordDecision` to the row at position `index` of the Submissions
store (the pandas `subs_df.at[index, ...]` writes at lines 56-58; `index` is
a positional label taken from the pending selector, so it names an existing
row). Out-of-range positions leave the list unchanged. -/
def decideAt : List Submission → Nat → String → String → String → List Submission
  | [], _, _, _, _ => []
  | s :: rest, 0, status, reason, today => recordDecision s status reason today :: rest
  | s :: rest, n + 1, status, reason, today => s :: decideAt rest n status reason today

/-- The timeline rewrite of lines 62-68 of src/pages/2_Smart_Timeline.py:
when some row's `event` equals `event_name` (`mask.any()`), every masked row
gets `date := new_date_str` and `status := "Rescheduled"` and the store is
written back; when the mask is empty nothing is written. -/
def applyReschedule (timeline : List TimelineEvent)
    (event_name new_date_str : String) : List TimelineEvent :=
  if timeline.any (fun e => e.event == event_name) then
    timeline.map (fun e =>
      if e.event == event_name then
        { e with date := new_date_str, status := "Rescheduled" }
      else e)
  else timeline

/-- `process_decision` (src/pages/2_Smart_Timeline.py lines 51-68): updates
the submission row at `index` with the decision, then, only when
`status = "Approved"`, performs the timeline rewrite.  Returns the pair of
stores after both writes.  The source signals no error in any branch. -/
def process_decision (index : Nat) (status reason event_name new_date_str : String)
    (today : String) (subs : List Submission) (timeline : List TimelineEvent) :
    List Submission × List TimelineEvent :=
  let subs' := decideAt subs index status reason today
  let timeline' :=
    if status == "Approved" then applyReschedule timeline event_name new_date_str
    else timeline
  (subs', timeline')

/-- The pending filter of src/pages/2_Smart_Timeline.py lines 212-213
(`subs_df[subs_df['status'] == 'Pending']`), the spec's `list_pending`. -/
def list_pending (subs : List Submission) : List Submission :=
  subs.filter (fun s => s.status == "Pending")

/-- The actions of the spec's access policy (§4.2). -/
inductive Action where
  | ViewAllRequests
  | Decide
  | ViewOwnRequests
  | CreateRequest
  deriving Repr, DecidableEq

/-- The access policy as the source implements it through its role gates:
src/pages/2_Smart_Timeline.py stops the page when `user_role` is absent or
`None` (lines 11-13), then the Actions tab (lines 208-261) gives the role
`arbitrator` the adjudication view (view all pending requests, decide) and
gives every other logged-in role the party view (view own requests, file a
request).  src/pages/1_Drafting_PO1.py lines 14-21 likewise gate on
`user_role == 'arbitrator'`. -/
def permitted_actions : Option String → List Action
  | none => []
  | some role =>
    if role == "arbitrator" then [Action.ViewAllRequests, Action.Decide]
    else [Action.ViewOwnRequests, Action.CreateRequest]

/-- A row of the Users worksheet (src/main.py lines 23, 43-48). -/
structure User where
  username : String
  name : String
  password : String
  role : String
  deriving Repr, DecidableEq

/-- `create_user` (src/main.py lines 32-55): if the username already occurs
in the `username` column, return `False` without writing; otherwise append
the new row, write the store back, and return `True`.  The emptiness guard
`not df.empty and username in df['username'].values` is membership in the
(possibly empty) list of rows. -/
def create_user (users : List User) (username name password role : String) :
    Bool × List User :=
  if users.any (fun u => u.username == username) then
    (false, users)
  else
    (true, users ++ [{ username := username, name := name,
                       password := password, role := role }])

/-! ### Concrete fixtures used by witnesses and counterexamples -/

/-- The seed TimelineEvent of the spec's concrete scenario (§8). -/
def seedEvent : TimelineEvent :=
  { event := "Statement of Defence", date := "2026-01-15",
    owner := "Respondent", status := "Scheduled" }

/-- A one-row Timeline store holding only `seedEvent`. -/
def seedTimeline : List TimelineEvent := [seedEvent]

/-- A pending request against `seedEvent`, as in the spec's scenario (§8). -/
def samplePending : Submission :=
  { party := "respondent", doc_type := "Extension Request",
    summary := "need more time", proposed_date := "2026-01-29",
    status := "Pending", target_event := "Statement of Defence",
    decision_reason := "", decision_date := "" }

/-- A request that has already been decided (status `Approved`). -/
def decidedReq : Submission :=
  { party := "respondent", doc_type := "Extension Request",
    summary := "more time needed", proposed_date := "2026-01-29",
    status := "Approved", target_event := "Statement of Defence",
    decision_reason := "good cause shown", decision_date := "2026-01-10" }

/-- A pending request whose `target_event` names no row of `seedTimeline`. -/
def ghostRequest : Submission :=
  { party := "claimant", doc_type := "Extension Request", summary := "need time",
    proposed_date := "2026-03-01", status := "Pending",
    target_event := "Ghost Hearing", decision_reason := "", decision_date := "" }

/-- Two timeline rows sharing the same `event` name (uniqueness violated). -/
def dupEventA : TimelineEvent :=
  { event := "Hearing", date := "2026-05-01", owner := "Tribunal", status := "Scheduled" }

/-- Second row with the same `event` name as `dupEventA`. -/
def dupEventB : TimelineEvent :=
  { event := "Hearing", date := "2026-06-01", owner := "All", status := "Scheduled" }

/-- A user row for the Users store fixtures. -/
def aliceUser : User :=
  { username := "alice", name := "Counsel for Claimant",
    password := "pw1", role := "claimant" }

/-! ### Helper lemmas -/

/-- `decideAt` rewrites exactly the addressed row. -/
theorem decideAt_getElem_self (subs : List Submission) (index : Nat)
    (status reason today : String) (s : Submission) (hs : subs[index]? = some s) :
    (decideAt subs index status reason today)[index]? =
      some (recordDecision s status reason today) := by
  induction subs generalizing index with
  | nil => simp at hs
  | cons a rest ih =>
    cases index with
    | zero => simp_all [decideAt]
    | succ n => simpa [decideAt] using ih n (by simpa using hs)

/-- When row `i` of the timeline matches `event_name`, the rewrite of lines
62-68 replaces it by the rescheduled row. -/
theorem applyReschedule_getElem_of_match (timeline : List TimelineEvent)
    (ev nd : String) (i : Nat) (e : TimelineEvent)
    (he : timeline[i]? = some e) (hev : e.event = ev) :
    (applyReschedule timeline ev nd)[i]? =
      some { e with date := nd, status := "Rescheduled" } := by
  have hmem : e ∈ timeline := List.getElem?_mem he
  have hany : timeline.any (fun x => x.event == ev) = true := by
    rw [List.any_eq_true]
    exact ⟨e, hmem, by simp [hev]⟩
  unfold applyReschedule
  rw [if_pos hany, List.getElem?_map, he]
  simp [hev]

/-! ### Claim theorems -/

/-- C1: For every decision with outcome Approved on a request whose
`target_event` names an existing TimelineEvent, `process_decision` sets that
TimelineEvent's `date` to the request's `proposed_date` and its `status` to
`Rescheduled` (the UI passes the request's `target_event` and
`proposed_date` as `event_name` and `new_date_str`). -/
theorem approved_decision_reschedules_target
    (subs : List Submission) (timeline : List TimelineEvent)
    (index i : Nat) (reason new_date today ev : String) (e : TimelineEvent)
    (he : timeline[i]? = some e) (hev : e.event = ev) :
    ((process_decision index "Approved" reason ev new_date today subs timeline).2)[i]? =
      some { e with date := new_date, status := "Rescheduled" } := by
  have h := applyReschedule_getElem_of_match timeline ev new_date i e he hev
  simpa [process_decision] using h

/-- Witness for C1: the spec's §8 scenario, approving the request against
"Statement of Defence" reschedules it to 2026-01-29. -/
theorem approved_decision_reschedules_target_witness :
    ((process_decision 0 "Approved" "Good cause shown" "Statement of Defence"
        "2026-01-29" "2026-02-01" [samplePending] [seedEvent]).2)[0]? =
      some { seedEvent with date := "2026-01-29", status := "Rescheduled" } :=
  approved_decision_reschedules_target [samplePending] [seedEvent] 0 0
    "Good cause shown" "2026-01-29" "2026-02-01" "Statement of Defence"
    seedEvent rfl rfl

/-- C5: For every decision with outcome Rejected, the TimelineEvent store is
returned completely unchanged: the `status == "Approved"` guard at line 62
skips the timeline read and write. -/
theorem rejected_decision_preserves_timeline
    (subs : List Submission) (timeline : List TimelineEvent)
    (index : Nat) (reason event_name new_date today : String) :
    (process_decision index "Rejected" reason event_name new_date today subs timeline).2 =
      timeline := by
  simp [process_decision]

/-- C7: For every decision, regardless of outcome, `process_decision` sets
the addressed request's `status` to the given outcome, stores the given
reason verbatim in `decision_reason`, and sets `decision_date` to the
current date (lines 56-58; the current date enters as `today`). -/
theorem decide_records_outcome_reason_date
    (subs : List Submission) (timeline : List TimelineEvent)
    (index : Nat) (outcome reason event_name new_date today : String)
    (s : Submission) (hs : subs[index]? = some s) :
    ((process_decision index outcome reason event_name new_date today subs timeline).1)[index]? =
      some { s with status := outcome, decision_reason := reason,
                    decision_date := today } := by
  have h := decideAt_getElem_self subs index outcome reason today s hs
  simpa [process_decision] using h

/-- Witness for C7: rejecting the spec's §8 request records the outcome, the
reason and the decision date on the request row. -/
theorem decide_records_outcome_reason_date_witness :
    ((process_decision 0 "Rejected" "No good cause" "Statement of Defence"
        "2026-01-29" "2026-02-01" [samplePending] seedTimeline).1)[0]? =
      some { samplePending with
               status := "Rejected", decision_reason := "No good cause",
               decision_date := "2026-02-01" } :=
  decide_records_outcome_reason_date [samplePending] seedTimeline 0
    "Rejected" "No good cause" "Statement of Defence" "2026-01-29" "2026-02-01"
    samplePending rfl

/-- C6: For every input, `add_submission` appends exactly one new request
with `status = "Pending"` and empty decision fields; the new request is
visible to the pending filter with matching fields, and no deduplication
occurs (the store always grows by exactly one row). -/
theorem create_request_appends_single_pending
    (subs : List Submission)
    (party doc_type summary proposed_date target_event : String) :
    add_submission subs party doc_type summary proposed_date target_event =
      subs ++ [{ party := party, doc_type := doc_type, summary := summary,
                 proposed_date := proposed_date, status := "Pending",
                 target_event := target_event, decision_reason := "",
                 decision_date := "" }] ∧
    (add_submission subs party doc_type summary proposed_date target_event).length =
      subs.length + 1 ∧
    list_pending (add_submission subs party doc_type summary proposed_date target_event) =
      list_pending subs ++
        [{ party := party, doc_type := doc_type, summary := summary,
           proposed_date := proposed_date, status := "Pending",
           target_event := target_event, decision_reason := "",
           decision_date := "" }] := by
  refine ⟨rfl, by simp [add_submission], ?_⟩
  simp [add_submission, list_pending, List.filter_append]

/-- C2 (code evaluated at the failing input): `process_decision` performs no
Pending check, so a second decision on an already-decided request silently
overwrites the recorded decision instead of failing with
`InvalidTransitionError`. -/
theorem decide_overwrites_decided_request :
    (process_decision 0 "Rejected" "second thoughts" "Statement of Defence"
        "2026-01-29" "2026-02-01" [decidedReq] []).1 =
      [{ decidedReq with
           status := "Rejected", decision_reason := "second thoughts",
           decision_date := "2026-02-01" }] ∧
    (process_decision 0 "Rejected" "second thoughts" "Statement of Defence"
        "2026-01-29" "2026-02-01" [decidedReq] []).1 ≠ [decidedReq] := by
  exact ⟨rfl, by decide⟩

/-- C3 (code evaluated at the failing input): `add_submission` performs no
validation of `target_event`, so a request against an event absent from the
Timeline store is appended anyway instead of failing with
`ValidationError`. -/
theorem add_submission_skips_target_validation :
    seedTimeline.any (fun e => e.event == "Ghost Hearing") = false ∧
    add_submission [] "claimant" "Extension Request" "need time" "2026-03-01"
        "Ghost Hearing" =
      [{ party := "claimant", doc_type := "Extension Request",
         summary := "need time", proposed_date := "2026-03-01",
         status := "Pending", target_event := "Ghost Hearing",
         decision_reason := "", decision_date := "" }] := by
  exact ⟨by decide, rfl⟩

/-- C4 (code evaluated at the failing input): approving a request whose
`target_event` names no TimelineEvent records the decision and leaves the
timeline untouched, but the `if mask.any()` guard at line 65 makes the
timeline update a silent no-op: `process_decision` has no error channel, so
no `DanglingReferenceError` is signaled to the caller. -/
theorem approved_dangling_reference_is_silent :
    process_decision 0 "Approved" "granted" "Ghost Hearing" "2026-03-01"
        "2026-02-01" [ghostRequest] seedTimeline =
      ([{ ghostRequest with
            status := "Approved", decision_reason := "granted",
            decision_date := "2026-02-01" }], seedTimeline) := by
  decide

/-- C8 counterexample: a role that is neither arbitrator nor claimant nor
respondent is granted the party actions, not the empty set. -/
theorem permitted_actions_other_role_nonempty :
    permitted_actions (some "observer") =
      [Action.ViewOwnRequests, Action.CreateRequest] ∧
    permitted_actions (some "observer") ≠ [] := by
  decide

/-- C8 amended: the arbitrator role is granted exactly ViewAllRequests and
Decide; every other present role — claimant, respondent, or any other string
— is granted exactly ViewOwnRequests and CreateRequest; only an absent role
is granted no actions. -/
theorem permitted_actions_role_gate :
    permitted_actions none = [] ∧
    permitted_actions (some "arbitrator") = [Action.ViewAllRequests, Action.Decide] ∧
    ∀ role : String, role ≠ "arbitrator" →
      permitted_actions (some role) = [Action.ViewOwnRequests, Action.CreateRequest] := by
  refine ⟨rfl, rfl, ?_⟩
  intro role h
  simp [permitted_actions, h]

/-- Witness for C8 amended: the claimant role gets the party actions. -/
theorem permitted_actions_role_gate_witness :
    permitted_actions (some "claimant") =
      [Action.ViewOwnRequests, Action.CreateRequest] :=
  permitted_actions_role_gate.2.2 "claimant" (by decide)

/-- C9: when the uniqueness invariant on `event` is violated and several
timeline rows match the approved request's `target_event`, the masked write
at lines 66-67 updates every matching row, not just the first. -/
theorem approved_decision_updates_all_duplicates
    (subs : List Submission) (timeline : List TimelineEvent)
    (index i j : Nat) (reason new_date today ev : String)
    (e1 e2 : TimelineEvent) (_hij : i ≠ j)
    (h1 : timeline[i]? = some e1) (h2 : timeline[j]? = some e2)
    (hev1 : e1.event = ev) (hev2 : e2.event = ev) :
    ((process_decision index "Approved" reason ev new_date today subs timeline).2)[i]? =
        some { e1 with date := new_date, status := "Rescheduled" } ∧
    ((process_decision index "Approved" reason ev new_date today subs timeline).2)[j]? =
        some { e2 with date := new_date, status := "Rescheduled" } := by
  constructor
  · have h := applyReschedule_getElem_of_match timeline ev new_date i e1 h1 hev1
    simpa [process_decision] using h
  · have h := applyReschedule_getElem_of_match timeline ev new_date j e2 h2 hev2
    simpa [process_decision] using h

/-- Witness for C9: with two rows both named "Hearing", an approval against
"Hearing" reschedules both rows. -/
theorem approved_decision_updates_all_duplicates_witness :
    ((process_decision 0 "Approved" "granted" "Hearing" "2026-07-01" "2026-02-01"
        [samplePending] [dupEventA, dupEventB]).2)[0]? =
        some { dupEventA with date := "2026-07-01", status := "Rescheduled" } ∧
    ((process_decision 0 "Approved" "granted" "Hearing" "2026-07-01" "2026-02-01"
        [samplePending] [dupEventA, dupEventB]).2)[1]? =
        some { dupEventB with date := "2026-07-01", status := "Rescheduled" } :=
  approved_decision_updates_all_duplicates [samplePending] [dupEventA, dupEventB]
    0 0 1 "granted" "2026-07-01" "2026-02-01" "Hearing" dupEventA dupEventB
    (by decide) rfl rfl rfl rfl

/-- C10: `create_user` returns `False` and leaves the Users store unchanged
when the username is already present, and otherwise appends exactly one row
with the given fields and returns `True`. -/
theorem create_user_checks_username
    (users : List User) (username name password role : String) :
    ((∃ u ∈ users, u.username = username) →
        create_user users username name password role = (false, users)) ∧
    ((∀ u ∈ users, u.username ≠ username) →
        create_user users username name password role =
          (true, users ++ [{ username := username, name := name,
                             password := password, role := role }])) := by
  constructor
  · rintro ⟨u, hu, he⟩
    have hany : users.any (fun u => u.username == username) = true := by
      rw [List.any_eq_true]
      exact ⟨u, hu, by simp [he]⟩
    simp [create_user, hany]
  · intro h
    have hany : users.any (fun u => u.username == username) = false := by
      rw [Bool.eq_false_iff]
      intro hc
      rw [List.any_eq_true] at hc
      obtain ⟨u, hu, he⟩ := hc
      exact h u hu (by simpa using he)
    simp [create_user, hany]

/-- Witness for C10: re-creating "alice" fails and leaves the store alone;
creating "bob" appends one row and succeeds. -/
theorem create_user_checks_username_witness :
    create_user [aliceUser] "alice" "Someone Else" "pw2" "respondent" =
      (false, [aliceUser]) ∧
    create_user [aliceUser] "bob" "Counsel for Respondent" "pw3" "respondent" =
      (true, [aliceUser, { username := "bob", name := "Counsel for Respondent",
                           password := "pw3", role := "respondent" }]) :=
  ⟨(create_user_checks_username [aliceUser] "alice" "Someone Else" "pw2"
      "respondent").1 ⟨aliceUser, List.mem_singleton_self aliceUser, rfl⟩,
   (create_user_checks_username [aliceUser] "bob" "Counsel for Respondent" "pw3"
      "respondent").2 (by decide)⟩

end ProcedeAI
